import Mathlib

/-!
Verification of the server-discovery and connection-state core of the
LAN messenger client.

The Lean definitions below are a shallow embedding of the Python sources:

* models/server_info.py        — ServerInfo dataclass with dict/json codecs
* server_discovery.py          — ServerDiscovery cache (merge, offline sweep,
                                 lookup by address)
* network/broadcast_client.py  — BroadcastClient UDP probe and response parser
* network/websocket_client.py  — MessengerWebSocket reconnect loop

Timestamps (Python time.time, a float) are modelled as Int: every property
checked here only compares and subtracts timestamps, never divides them.
JSON objects are modelled as association lists of (key, value) pairs; the
Python standard-library json.dumps/json.loads string layer is external to the
repository and is modelled as the identity on the dictionary value.
-/

/-- JSON scalar values as they appear in the dict codecs of ServerInfo. -/
inductive JValue where
  | jnull : JValue
  | jstr (s : String) : JValue
  | jint (n : Int) : JValue
  | jbool (b : Bool) : JValue
deriving DecidableEq, Repr

abbrev JDict := List (String × JValue)

/-- models/server_info.py: the ServerInfo dataclass.  Field defaults follow
the dataclass declaration (users_count=0, is_password_protected=False,
description="", version="1.0", max_users=50, is_online=True, last_seen=None). -/
structure ServerInfo where
  name : String
  ip : String
  port : Int
  users_count : Int := 0
  is_password_protected : Bool := false
  description : String := ""
  version : String := "1.0"
  max_users : Int := 50
  is_online : Bool := true
  last_seen : Option Int := none
deriving DecidableEq, Repr

namespace ServerInfo

/-- models/server_info.py ServerInfo.to_dict. -/
def to_dict (s : ServerInfo) : JDict :=
  [ ("name", JValue.jstr s.name),
    ("ip", JValue.jstr s.ip),
    ("port", JValue.jint s.port),
    ("users_count", JValue.jint s.users_count),
    ("is_password_protected", JValue.jbool s.is_password_protected),
    ("description", JValue.jstr s.description),
    ("version", JValue.jstr s.version),
    ("max_users", JValue.jint s.max_users),
    ("is_online", JValue.jbool s.is_online),
    ("last_seen", match s.last_seen with
                  | some t => JValue.jint t
                  | none => JValue.jnull) ]

/-- data[k] for a required string field: missing key or a non-string value
makes the whole parse fail (Python raises KeyError / the caller breaks). -/
def getReqStr (d : JDict) (k : String) : Option String :=
  match d.lookup k with
  | some (JValue.jstr s) => some s
  | _ => none

/-- data[k] for a required integer field. -/
def getReqInt (d : JDict) (k : String) : Option Int :=
  match d.lookup k with
  | some (JValue.jint n) => some n
  | _ => none

/-- data.get(k, dflt) for an optional string field. -/
def getOptStr (d : JDict) (k : String) (dflt : String) : Option String :=
  match d.lookup k with
  | none => some dflt
  | some (JValue.jstr s) => some s
  | some _ => none

/-- data.get(k, dflt) for an optional integer field. -/
def getOptInt (d : JDict) (k : String) (dflt : Int) : Option Int :=
  match d.lookup k with
  | none => some dflt
  | some (JValue.jint n) => some n
  | some _ => none

/-- data.get(k, dflt) for an optional boolean field. -/
def getOptBool (d : JDict) (k : String) (dflt : Bool) : Option Bool :=
  match d.lookup k with
  | none => some dflt
  | some (JValue.jbool b) => some b
  | some _ => none

/-- data.get(k) for the optional last_seen timestamp: absent and null both
give Python None. -/
def getOptTime (d : JDict) (k : String) : Option (Option Int) :=
  match d.lookup k with
  | none => some none
  | some JValue.jnull => some none
  | some (JValue.jint n) => some (some n)
  | some _ => none

/-- models/server_info.py ServerInfo.from_dict. -/
def from_dict (d : JDict) : Option ServerInfo := do
  let name ← getReqStr d "name"
  let ip ← getReqStr d "ip"
  let port ← getReqInt d "port"
  let users_count ← getOptInt d "users_count" 0
  let is_password_protected ← getOptBool d "is_password_protected" false
  let description ← getOptStr d "description" ""
  let version ← getOptStr d "version" "1.0"
  let max_users ← getOptInt d "max_users" 50
  let is_online ← getOptBool d "is_online" true
  let last_seen ← getOptTime d "last_seen"
  pure { name := name, ip := ip, port := port, users_count := users_count,
         is_password_protected := is_password_protected,
         description := description, version := version,
         max_users := max_users, is_online := is_online,
         last_seen := last_seen }

/-- models/server_info.py ServerInfo.to_json: json.dumps applied to to_dict.
The string layer is the Python standard library, modelled as the identity on
the dictionary value. -/
def to_json (s : ServerInfo) : JDict := to_dict s

/-- models/server_info.py ServerInfo.from_json: from_dict applied to the
json.loads of the string, with the string layer modelled as the identity. -/
def from_json (d : JDict) : Option ServerInfo := from_dict d

end ServerInfo

/-! ## Server registry / cache (server_discovery.py) -/

/-- The cache key built in ServerDiscovery.discover: the string ip:port. -/
def serverKey (ip : String) (port : Int) : String :=
  ip ++ ":" ++ toString port

/-- self.found_servers: a dict from the ip:port key to ServerInfo, modelled
as an insertion-ordered association list with unique keys. -/
abbrev Registry := List (String × ServerInfo)

/-- In-place update of the value stored under key k (Python dict item
mutation): every other entry, and the position of the entry, is unchanged. -/
def updateEntry (reg : Registry) (k : String) (f : ServerInfo → ServerInfo) :
    Registry :=
  reg.map (fun p => if p.1 = k then (p.1, f p.2) else p)

/-- server_discovery.py ServerDiscovery.discover, cache-merge step for one
incoming probe result: an existing ip:port entry gets last_seen refreshed and
is_online set true in place; a new key is inserted at the end with
last_seen set to the current time. -/
def mergeServer (now : Int) (reg : Registry) (server : ServerInfo) : Registry :=
  if (reg.lookup (serverKey server.ip server.port)).isSome then
    updateEntry reg (serverKey server.ip server.port)
      (fun old => { old with last_seen := some now, is_online := true })
  else
    reg ++ [(serverKey server.ip server.port, { server with last_seen := some now })]

/-- server_discovery.py ServerDiscovery._mark_offline_servers, one entry:
Python tests the truthiness of server.last_seen (None and 0.0 both skip)
and then current_time - last_seen > offline_timeout. -/
def sweepEntry (now maxAge : Int) (s : ServerInfo) : ServerInfo :=
  match s.last_seen with
  | some t => if t ≠ 0 ∧ now - t > maxAge then { s with is_online := false } else s
  | none => s

/-- server_discovery.py ServerDiscovery._mark_offline_servers over the whole
cache: entries are only mutated, never removed. -/
def markOfflineServers (now maxAge : Int) (reg : Registry) : Registry :=
  reg.map (fun p => (p.1, sweepEntry now maxAge p.2))

/-- server_discovery.py ServerDiscovery.get_server_by_address. -/
def get_server_by_address (reg : Registry) (ip : String) (port : Int) :
    Option ServerInfo :=
  reg.lookup (serverKey ip port)

/-- server_discovery.py ServerDiscovery.discover: merge every probe result
into the cache, run the offline sweep, and return the full cache contents
(list(self.found_servers.values())), not merely the servers that answered
this round.  Result: (updated cache, returned list). -/
def discover (reg : Registry) (found : List ServerInfo) (now maxAge : Int) :
    Registry × List ServerInfo :=
  let reg1 := found.foldl (mergeServer now) reg
  let reg2 := markOfflineServers now maxAge reg1
  (reg2, reg2.map Prod.snd)

/-! ## Broadcast prober (network/broadcast_client.py) -/

/-- The JSON object of one discovery-response datagram, restricted to the
keys BroadcastClient._parse_server_response reads.  An Option field is none
when the key is absent from the object.  Note there is no host field: the
wire format carries no host. -/
structure RawResponse where
  tag : Option String := none
  name : Option String := none
  port : Option Int := none
  users_count : Option Int := none
  password_required : Option Bool := none
  description : Option String := none
  version : Option String := none
  max_users : Option Int := none
deriving DecidableEq, Repr

/-- network/broadcast_client.py BroadcastClient._parse_server_response.
The payload is none when the datagram is not valid JSON (json.loads raises,
the except clause returns None).  A wrong type tag or a missing required
field (name, port) returns None.  The host of the produced ServerInfo is
addr[0], the UDP sender address; last_seen is time.time(); is_online is
True; the remaining fields use response.get defaults. -/
def parse_server_response : Option RawResponse → String → Int →
    Option ServerInfo
  | none, _, _ => none
  | some r, srcIp, now =>
    if r.tag ≠ some "server_response" then none
    else
      match r.name, r.port with
      | some nm, some p =>
        some { name := nm, ip := srcIp, port := p,
               users_count := r.users_count.getD 0,
               is_password_protected := r.password_required.getD false,
               description := r.description.getD "",
               version := r.version.getD "1.0",
               max_users := r.max_users.getD 50,
               is_online := true, last_seen := some now }
      | _, _ => none

/-- One event observed by the receive loop of discover_servers: either a
datagram arrives from srcIp (payload none when it is not valid JSON), or
recvfrom raises socket.timeout. -/
inductive RecvEvent where
  | datagram (payload : Option RawResponse) (srcIp : String) : RecvEvent
  | sockTimeout : RecvEvent
deriving DecidableEq, Repr

/-- network/broadcast_client.py BroadcastClient.discover_servers, receive
loop: collect every datagram that parses into a ServerInfo, skip the rest
and keep listening; stop on socket.timeout (break) or when the wall-clock
window closes (the event list ends).  Every exception inside the loop is
caught, so the function always returns the list collected so far. -/
def discover_servers (now : Int) : List RecvEvent → List ServerInfo
  | [] => []
  | RecvEvent.sockTimeout :: _ => []
  | RecvEvent.datagram p ip :: rest =>
    match parse_server_response p ip now with
    | some si => si :: discover_servers now rest
    | none => discover_servers now rest

/-! ## WebSocket session transport (network/websocket_client.py) -/

/-- The mutable connection state of MessengerWebSocket. -/
structure WSClient where
  user_id : Int
  reconnect_attempts : Nat := 0
  max_reconnect_attempts : Nat := 5
  is_connected : Bool := false
  running : Bool := true
deriving DecidableEq, Repr

/-- Externally visible side effects of the listener loop, in order. -/
inductive WSAction where
  | connectAttempt : WSAction
  | emitConnection (up : Bool) : WSAction
  | sendAuth : WSAction
  | sendPing : WSAction
  | sleep (seconds : Nat) : WSAction
  | markOffline : WSAction
deriving DecidableEq, Repr

/-- What one iteration of the inner read loop observes.  msg: a frame was
received and dispatched.  timeoutPingOk: asyncio.wait_for timed out and the
keep-alive ping send succeeded.  timeoutPingFail: the ping send raised
(break).  closed: ConnectionClosed (break).  recvError: any other receive
exception (break).  stop: disconnect() flipped self.running to False, so
the while-condition check exits the loop. -/
inductive ReadEvent where
  | msg : ReadEvent
  | timeoutPingOk : ReadEvent
  | timeoutPingFail : ReadEvent
  | closed : ReadEvent
  | recvError : ReadEvent
  | stop : ReadEvent
deriving DecidableEq, Repr

/-- How one websockets.connect attempt plays out: the connect call raises
(fail), or it succeeds and the session then observes the given read events. -/
inductive ConnectOutcome where
  | fail : ConnectOutcome
  | ok (reads : List ReadEvent) : ConnectOutcome
deriving DecidableEq, Repr

/-- How an established session ended: broke (a break out of the read loop),
stopped (running observed False), or blocked (the event script ran out while
the loop was still reading — the real loop would still be blocked). -/
inductive SessionEnd where
  | broke : SessionEnd
  | stopped : SessionEnd
  | blocked : SessionEnd
deriving DecidableEq, Repr

/-- How the whole listener ended: finished (the outer while-condition became
false and the loop exited), outOfScript (the loop was about to make another
connection attempt when the script ran out), or blocked inside a session. -/
inductive ListenerEnd where
  | finished : ListenerEnd
  | outOfScript : ListenerEnd
  | blocked : ListenerEnd
deriving DecidableEq, Repr

/-- The backoff delay of _handle_disconnection: min(2 * attempts, 10). -/
def backoffDelay (attempt : Nat) : Nat := min (2 * attempt) 10

/-- network/websocket_client.py MessengerWebSocket._handle_disconnection:
set is_connected False, emit connection_changed(False), increment the
attempt counter; sleep the backoff delay only when attempts are left. -/
def handleDisconnection (st : WSClient) : WSClient × List WSAction :=
  if st.reconnect_attempts + 1 < st.max_reconnect_attempts then
    ({ st with is_connected := false,
               reconnect_attempts := st.reconnect_attempts + 1 },
     [WSAction.emitConnection false,
      WSAction.sleep (backoffDelay (st.reconnect_attempts + 1))])
  else
    ({ st with is_connected := false,
               reconnect_attempts := st.reconnect_attempts + 1 },
     [WSAction.emitConnection false])

/-- The inner read loop of _websocket_listener (while self.running: recv
with timeout 25).  A break leaves all state unchanged — in particular the
attempt counter is not touched and is_connected stays true.  The stop event
carries the effects of disconnect(): running and is_connected set False with
a connection_changed(False) emit, after which the while-condition fails. -/
def runReads (st : WSClient) : List ReadEvent →
    WSClient × List WSAction × SessionEnd
  | [] => (st, [], SessionEnd.blocked)
  | ReadEvent.msg :: rest => runReads st rest
  | ReadEvent.timeoutPingOk :: rest =>
    let r := runReads st rest
    (r.1, WSAction.sendPing :: r.2.1, r.2.2)
  | ReadEvent.timeoutPingFail :: _ =>
    (st, [WSAction.sendPing], SessionEnd.broke)
  | ReadEvent.closed :: _ => (st, [], SessionEnd.broke)
  | ReadEvent.recvError :: _ => (st, [], SessionEnd.broke)
  | ReadEvent.stop :: _ =>
    ({ st with running := false, is_connected := false },
     [WSAction.emitConnection false], SessionEnd.stopped)

/-- The result of _websocket_listener when its outer while-condition fails:
the loop exits, and only when self.running is still True does the client
call _mark_user_offline (best-effort, its own exceptions are caught). -/
def listenerExit (st : WSClient) : WSClient × List WSAction × ListenerEnd :=
  (st, if st.running then [WSAction.markOffline] else [], ListenerEnd.finished)

/-- network/websocket_client.py MessengerWebSocket._websocket_listener:
while self.running and self.reconnect_attempts < self.max_reconnect_attempts,
attempt a connection.  On a connect exception, _handle_disconnection runs.
On success: is_connected True, attempts reset to 0, connection_changed(True)
emitted, the auth message sent, then the read loop; a break out of the read
loop falls straight back to the outer while (no counter change, no backoff). -/
def runListener : WSClient → List ConnectOutcome →
    WSClient × List WSAction × ListenerEnd
  | st, [] =>
    if st.running ∧ st.reconnect_attempts < st.max_reconnect_attempts then
      (st, [], ListenerEnd.outOfScript)
    else listenerExit st
  | st, ConnectOutcome.fail :: rest =>
    if st.running ∧ st.reconnect_attempts < st.max_reconnect_attempts then
      ((runListener (handleDisconnection st).1 rest).1,
       WSAction.connectAttempt ::
         ((handleDisconnection st).2 ++
           (runListener (handleDisconnection st).1 rest).2.1),
       (runListener (handleDisconnection st).1 rest).2.2)
    else listenerExit st
  | st, ConnectOutcome.ok reads :: rest =>
    if st.running ∧ st.reconnect_attempts < st.max_reconnect_attempts then
      match runReads { st with is_connected := true,
                               reconnect_attempts := 0 } reads with
      | (st2, acts, SessionEnd.blocked) =>
        (st2, WSAction.connectAttempt :: WSAction.emitConnection true ::
              WSAction.sendAuth :: acts, ListenerEnd.blocked)
      | (st2, acts, _) =>
        ((runListener st2 rest).1,
         WSAction.connectAttempt :: WSAction.emitConnection true ::
           WSAction.sendAuth :: (acts ++ (runListener st2 rest).2.1),
         (runListener st2 rest).2.2)
    else listenerExit st

/-- Number of connection attempts recorded in an action trace. -/
def countConnects (acts : List WSAction) : Nat :=
  acts.countP (fun a => a == WSAction.connectAttempt)

/-- Whether an action is a backoff sleep. -/
def isSleep : WSAction → Bool
  | WSAction.sleep _ => true
  | _ => false

/-- Whether an action is the mark-user-offline presence call. -/
def isMarkOffline : WSAction → Bool
  | WSAction.markOffline => true
  | _ => false

/-! ## Helper lemmas about registry lookups -/

theorem lookup_updateEntry_self (reg : Registry) (k : String)
    (f : ServerInfo → ServerInfo) :
    (updateEntry reg k f).lookup k = (reg.lookup k).map f := by
  induction reg with
  | nil => rfl
  | cons p rest ih =>
    obtain ⟨a, b⟩ := p
    by_cases h : a = k
    · subst h
      show List.lookup a
          ((if a = a then (a, f b) else (a, b)) :: updateEntry rest a f) = _
      rw [if_pos rfl]
      simp only [List.lookup_cons, beq_self_eq_true]
      rfl
    · have hk : (k == a) = false := beq_eq_false_iff_ne.mpr (fun e => h e.symm)
      show List.lookup k
          ((if a = k then (a, f b) else (a, b)) :: updateEntry rest k f) = _
      rw [if_neg h]
      simp only [List.lookup_cons, hk]
      exact ih

theorem lookup_updateEntry_isSome (reg : Registry) (k0 k : String)
    (f : ServerInfo → ServerInfo) :
    ((updateEntry reg k0 f).lookup k).isSome = (reg.lookup k).isSome := by
  induction reg with
  | nil => rfl
  | cons p rest ih =>
    obtain ⟨a, b⟩ := p
    have hshow : updateEntry ((a, b) :: rest) k0 f =
        (if a = k0 then (a, f b) else (a, b)) :: updateEntry rest k0 f := rfl
    rw [hshow]
    by_cases h0 : a = k0
    · rw [if_pos h0]
      cases h : (k == a) with
      | true => simp only [List.lookup_cons, h]; rfl
      | false =>
        simp only [List.lookup_cons, h]
        exact ih
    · rw [if_neg h0]
      cases h : (k == a) with
      | true => simp only [List.lookup_cons, h]
      | false =>
        simp only [List.lookup_cons, h]
        exact ih

theorem lookup_append_isSome (reg l : Registry) (k : String)
    (h : (reg.lookup k).isSome = true) :
    ((reg ++ l).lookup k).isSome = true := by
  induction reg with
  | nil => simp [List.lookup] at h
  | cons p rest ih =>
    obtain ⟨a, b⟩ := p
    cases hk : (k == a) with
    | true => simp [List.lookup, hk]
    | false =>
      simp only [List.lookup, hk, List.cons_append] at h ⊢
      exact ih h

theorem mergeServer_keeps_key (now : Int) (reg : Registry) (s : ServerInfo)
    (k : String) (h : (reg.lookup k).isSome = true) :
    ((mergeServer now reg s).lookup k).isSome = true := by
  unfold mergeServer
  by_cases hc : (reg.lookup (serverKey s.ip s.port)).isSome = true
  · rw [if_pos hc, lookup_updateEntry_isSome]
    exact h
  · rw [if_neg hc]
    exact lookup_append_isSome reg _ k h

theorem foldl_merge_keeps_key (found : List ServerInfo) (reg : Registry)
    (now : Int) (k : String) (h : (reg.lookup k).isSome = true) :
    ((found.foldl (mergeServer now) reg).lookup k).isSome = true := by
  induction found generalizing reg with
  | nil => exact h
  | cons s rest ih => exact ih _ (mergeServer_keeps_key now reg s k h)

theorem lookup_markOffline (reg : Registry) (k : String) (now maxAge : Int) :
    (markOfflineServers now maxAge reg).lookup k
      = (reg.lookup k).map (sweepEntry now maxAge) := by
  induction reg with
  | nil => rfl
  | cons p rest ih =>
    obtain ⟨a, b⟩ := p
    cases h : (k == a) with
    | true => simp [markOfflineServers, List.lookup, h]
    | false => simpa [markOfflineServers, List.lookup, h] using ih

theorem lookup_mem_values (reg : Registry) (k : String) (s : ServerInfo)
    (h : reg.lookup k = some s) : s ∈ reg.map Prod.snd := by
  induction reg with
  | nil => simp [List.lookup] at h
  | cons p rest ih =>
    obtain ⟨a, b⟩ := p
    cases hk : (k == a) with
    | true =>
      simp only [List.lookup, hk, Option.some.injEq] at h
      simp [h]
    | false =>
      simp only [List.lookup, hk] at h
      simp only [List.map_cons, List.mem_cons]
      exact Or.inr (ih h)

/-! ## Concrete servers used in witnesses and counterexamples -/

/-- A cached descriptor as an earlier probe round left it. -/
def oldAlpha : ServerInfo :=
  { name := "Old", ip := "10.0.0.1", port := 8000, users_count := 3,
    is_password_protected := false, description := "old room", version := "1.0",
    max_users := 50, is_online := false, last_seen := some 100 }

/-- A fresh probe result for the same (host, port) key with changed mutable
fields. -/
def newAlpha : ServerInfo :=
  { name := "New", ip := "10.0.0.1", port := 8000, users_count := 7,
    is_password_protected := false, description := "new room", version := "1.1",
    max_users := 60, is_online := true, last_seen := some 200 }

/-- A cached descriptor of a server that stopped answering probes. -/
def deadServer : ServerInfo :=
  { name := "Gone", ip := "10.0.0.2", port := 9000, users_count := 0,
    is_password_protected := false, description := "", version := "1.0",
    max_users := 50, is_online := true, last_seen := some 10 }

/-- C1: false as stated.  Merging a probe result for an existing
(host,port) key leaves name, description and users_count at their cached
values: ServerDiscovery.discover only assigns last_seen and is_online in
the update branch.  Here the cached entry keeps name Old and users_count 3
although the incoming descriptor carries name New and users_count 7. -/
theorem C1_counterexample :
    (((mergeServer 200 [(serverKey "10.0.0.1" 8000, oldAlpha)] newAlpha).lookup
        (serverKey "10.0.0.1" 8000)).map ServerInfo.name = some "Old") ∧
    newAlpha.name = "New" ∧
    (((mergeServer 200 [(serverKey "10.0.0.1" 8000, oldAlpha)] newAlpha).lookup
        (serverKey "10.0.0.1" 8000)).map ServerInfo.name ≠ some newAlpha.name) ∧
    (((mergeServer 200 [(serverKey "10.0.0.1" 8000, oldAlpha)] newAlpha).lookup
        (serverKey "10.0.0.1" 8000)).map ServerInfo.users_count ≠
      some newAlpha.users_count) := by
  decide

/-- C1 (amended): for an incoming probe result whose (host,port) key exists
in the registry, the merge updates only is_online (to true) and last_seen
(to now) in place — name, description and users_count keep their cached
values — the key is unchanged and the number of entries is unchanged; a
result with a new (host,port) key is appended as a new entry with last_seen
set to now. -/
theorem C1_merge_updates_in_place (reg : Registry) (s : ServerInfo) (now : Int) :
    (∀ old, reg.lookup (serverKey s.ip s.port) = some old →
        (mergeServer now reg s).length = reg.length ∧
        (mergeServer now reg s).lookup (serverKey s.ip s.port) =
          some { old with is_online := true, last_seen := some now }) ∧
    (reg.lookup (serverKey s.ip s.port) = none →
        mergeServer now reg s =
          reg ++ [(serverKey s.ip s.port, { s with last_seen := some now })]) := by
  constructor
  · intro old h
    have hs : (reg.lookup (serverKey s.ip s.port)).isSome = true := by
      rw [h]; rfl
    unfold mergeServer
    rw [if_pos hs]
    refine ⟨?_, ?_⟩
    · simp [updateEntry]
    · rw [lookup_updateEntry_self, h]
      rfl
  · intro h
    have hs : ¬ ((reg.lookup (serverKey s.ip s.port)).isSome = true) := by
      rw [h]; simp
    unfold mergeServer
    rw [if_neg hs]

/-- C1 witness: the amended statement evaluated on a one-entry registry and
a probe result for the same key. -/
theorem C1_merge_witness :
    (mergeServer 200 [(serverKey "10.0.0.1" 8000, oldAlpha)] newAlpha).length =
      [(serverKey "10.0.0.1" 8000, oldAlpha)].length ∧
    (mergeServer 200 [(serverKey "10.0.0.1" 8000, oldAlpha)] newAlpha).lookup
        (serverKey "10.0.0.1" 8000) =
      some { oldAlpha with is_online := true, last_seen := some 200 } :=
  (C1_merge_updates_in_place [(serverKey "10.0.0.1" 8000, oldAlpha)]
      newAlpha 200).1 oldAlpha (by decide)

/-- C2: every registry entry with a (positive) last_seen timestamp older
than now - max_cache_age is marked offline by the sweep; the sweep removes
nothing, and get_server_by_address still returns the now-offline
descriptor.  (Positivity models time.time(): Python skips entries whose
last_seen is falsy, i.e. None or 0.0, and real timestamps are positive.) -/
theorem C2_sweep_marks_offline (reg : Registry) (ip : String) (port : Int)
    (s : ServerInfo) (now maxAge t : Int)
    (hmem : get_server_by_address reg ip port = some s)
    (ht : s.last_seen = some t) (hpos : 0 < t)
    (hold : t < now - maxAge) :
    get_server_by_address (markOfflineServers now maxAge reg) ip port =
      some { s with is_online := false } ∧
    (markOfflineServers now maxAge reg).length = reg.length := by
  have h1 : t ≠ 0 ∧ now - t > maxAge := ⟨by omega, by omega⟩
  have hsweep : sweepEntry now maxAge s = { s with is_online := false } := by
    unfold sweepEntry
    rw [ht]
    exact if_pos h1
  constructor
  · unfold get_server_by_address at hmem ⊢
    rw [lookup_markOffline, hmem]
    show some (sweepEntry now maxAge s) = _
    rw [hsweep]
  · simp [markOfflineServers]

/-- C2 witness: the sweep at now = 500 with max_cache_age = 300 on an entry
last seen at 100 (400 seconds ago). -/
theorem C2_sweep_witness :
    get_server_by_address
        (markOfflineServers 500 300 [(serverKey "10.0.0.2" 9000, deadServer)])
        "10.0.0.2" 9000 =
      some { deadServer with is_online := false } ∧
    (markOfflineServers 500 300
        [(serverKey "10.0.0.2" 9000, deadServer)]).length =
      [(serverKey "10.0.0.2" 9000, deadServer)].length :=
  C2_sweep_marks_offline [(serverKey "10.0.0.2" 9000, deadServer)]
    "10.0.0.2" 9000 deadServer 500 300 10 (by decide) (by decide)
    (by decide) (by decide)

/-- C10: ServerDiscovery.discover returns the full contents of the cached
registry (list(self.found_servers.values())): the returned list is exactly
the value list of the updated cache, every key cached before the call is
still present in the cache afterwards (so entries that did not answer this
probe round, including ones already marked offline, are returned too), and
every cache entry appears in the returned list. -/
theorem C10_discover_returns_cache (reg : Registry) (found : List ServerInfo)
    (now maxAge : Int) :
    (discover reg found now maxAge).2 =
      ((discover reg found now maxAge).1).map Prod.snd ∧
    (∀ k, (reg.lookup k).isSome = true →
        (((discover reg found now maxAge).1).lookup k).isSome = true) ∧
    (∀ k s, ((discover reg found now maxAge).1).lookup k = some s →
        s ∈ (discover reg found now maxAge).2) := by
  refine ⟨rfl, ?_, ?_⟩
  · intro k hk
    show ((markOfflineServers now maxAge
        (found.foldl (mergeServer now) reg)).lookup k).isSome = true
    rw [lookup_markOffline]
    have h1 := foldl_merge_keeps_key found reg now k hk
    cases h2 : (found.foldl (mergeServer now) reg).lookup k with
    | none => rw [h2] at h1; simp at h1
    | some v => rfl
  · intro k s h
    exact lookup_mem_values _ k s h

/-- C10 witness: a cached server that stopped answering (and is swept
offline by this very call) is still present in the cache and in the
returned list of discover. -/
theorem C10_discover_witness :
    (((discover [(serverKey "10.0.0.2" 9000, deadServer)] [newAlpha]
        500 300).1).lookup (serverKey "10.0.0.2" 9000)).isSome = true :=
  (C10_discover_returns_cache [(serverKey "10.0.0.2" 9000, deadServer)]
      [newAlpha] 500 300).2.1 (serverKey "10.0.0.2" 9000) (by decide)

/-- C9: to_dict followed by from_dict (and hence to_json followed by
from_json, the string layer being the standard-library json module)
reconstructs every ServerInfo exactly, field by field. -/
theorem C9_dict_roundtrip (s : ServerInfo) :
    ServerInfo.from_json (ServerInfo.to_json s) = some s ∧
    ServerInfo.from_dict (ServerInfo.to_dict s) = some s := by
  have h : ServerInfo.from_dict (ServerInfo.to_dict s) = some s := by
    cases s with
    | mk n i p uc pp d v mu io ls => cases ls <;> rfl
  exact ⟨h, h⟩

/-- C9 witness: the roundtrip evaluated on a concrete descriptor with a
non-null last_seen. -/
theorem C9_roundtrip_witness :
    ServerInfo.from_json (ServerInfo.to_json oldAlpha) = some oldAlpha ∧
    ServerInfo.from_dict (ServerInfo.to_dict oldAlpha) = some oldAlpha :=
  C9_dict_roundtrip oldAlpha

/-- A datagram whose parse is rejected: wrong type tag, or missing required
name or port field.  _parse_server_response returns None on each. -/
theorem parse_none_of_bad (r : RawResponse) (ip : String) (now : Int)
    (hr : r.tag ≠ some "server_response" ∨ r.name = none ∨ r.port = none) :
    parse_server_response (some r) ip now = none := by
  rw [parse_server_response]
  by_cases htag : r.tag ≠ some "server_response"
  · rw [if_pos htag]
  · rw [if_neg htag]
    rcases hr with h1 | h2 | h3
    · exact absurd h1 htag
    · rw [h2]
    · rw [h3]
      cases r.name <;> rfl

/-- C6: a probe that sees no reply — the receive window closes or recvfrom
raises socket.timeout first — returns the empty list (discover_servers is
total: every exception inside the loop is caught); and a malformed reply
(invalid JSON, wrong type tag, or missing name or port) contributes
nothing while the loop keeps listening to the remaining events. -/
theorem C6_probe_tolerant (now : Int) (rest : List RecvEvent)
    (p : Option RawResponse) (ip : String)
    (hbad : p = none ∨ ∃ r, p = some r ∧
      (r.tag ≠ some "server_response" ∨ r.name = none ∨ r.port = none)) :
    discover_servers now [] = [] ∧
    discover_servers now [RecvEvent.sockTimeout] = [] ∧
    discover_servers now (RecvEvent.datagram p ip :: rest) =
      discover_servers now rest := by
  refine ⟨rfl, rfl, ?_⟩
  have hp : parse_server_response p ip now = none := by
    rcases hbad with h | ⟨r, hpr, hr⟩
    · rw [h]; rfl
    · rw [hpr]
      exact parse_none_of_bad r ip now hr
  show (match parse_server_response p ip now with
        | some si => si :: discover_servers now rest
        | none => discover_servers now rest) = discover_servers now rest
  rw [hp]

/-- A response datagram missing the required name field. -/
def noNameResponse : RawResponse :=
  { tag := some "server_response", name := none, port := some 8000 }

/-- A well-formed response datagram as broadcast_server.py sends it. -/
def goodResponse : RawResponse :=
  { tag := some "server_response", name := some "Beta", port := some 8002,
    users_count := some 4, password_required := some false,
    description := some "room", version := some "1.0", max_users := some 50 }

/-- C6 witness: a malformed reply (missing name) is skipped and a
well-formed reply arriving after it is still collected. -/
theorem C6_probe_witness :
    discover_servers 100 [] = [] ∧
    discover_servers 100 [RecvEvent.sockTimeout] = [] ∧
    discover_servers 100
        (RecvEvent.datagram (some noNameResponse) "10.0.0.9" ::
          [RecvEvent.datagram (some goodResponse) "10.0.0.3",
           RecvEvent.sockTimeout]) =
      discover_servers 100
        [RecvEvent.datagram (some goodResponse) "10.0.0.3",
         RecvEvent.sockTimeout] :=
  C6_probe_tolerant 100
    [RecvEvent.datagram (some goodResponse) "10.0.0.3", RecvEvent.sockTimeout]
    (some noNameResponse) "10.0.0.9"
    (Or.inr ⟨noNameResponse, rfl, Or.inr (Or.inl rfl)⟩)

/-- C7: every descriptor built from a well-formed discovery response takes
its host from the UDP sender address (the payload carries no trusted host),
sets last_seen to the current time and is_online to true. -/
theorem C7_host_from_sender (payload : Option RawResponse) (srcIp : String)
    (now : Int) (si : ServerInfo)
    (h : parse_server_response payload srcIp now = some si) :
    si.ip = srcIp ∧ si.last_seen = some now ∧ si.is_online = true := by
  cases payload with
  | none => exact absurd h (by simp [parse_server_response])
  | some r =>
    rw [parse_server_response] at h
    by_cases htag : r.tag ≠ some "server_response"
    · rw [if_pos htag] at h
      exact Option.noConfusion h
    · rw [if_neg htag] at h
      cases hn : r.name with
      | none => rw [hn] at h; cases r.port <;> exact Option.noConfusion h
      | some nm =>
        cases hp : r.port with
        | none => rw [hn, hp] at h; exact Option.noConfusion h
        | some pt =>
          rw [hn, hp] at h
          injection h with h2
          subst h2
          exact ⟨rfl, rfl, rfl⟩

/-- The descriptor the prober builds from goodResponse sent by 10.0.0.3. -/
def betaInfo : ServerInfo :=
  { name := "Beta", ip := "10.0.0.3", port := 8002, users_count := 4,
    is_password_protected := false, description := "room", version := "1.0",
    max_users := 50, is_online := true, last_seen := some 100 }

/-- C7 witness: the parse of a concrete well-formed response from sender
10.0.0.3 at time 100. -/
theorem C7_parse_witness :
    betaInfo.ip = "10.0.0.3" ∧ betaInfo.last_seen = some 100 ∧
    betaInfo.is_online = true :=
  C7_host_from_sender (some goodResponse) "10.0.0.3" 100 betaInfo (by decide)

/-! ## Helper lemmas about the listener loop -/

/-- The state assignment performed by _handle_disconnection. -/
def bumpAttempt (st : WSClient) : WSClient :=
  { st with is_connected := false,
            reconnect_attempts := st.reconnect_attempts + 1 }

theorem handleDisconnection_state (st : WSClient) :
    (handleDisconnection st).1 = bumpAttempt st := by
  unfold handleDisconnection bumpAttempt
  by_cases h : st.reconnect_attempts + 1 < st.max_reconnect_attempts
  · rw [if_pos h]
  · rw [if_neg h]

theorem handleDisconnection_counts (st : WSClient) :
    countConnects (handleDisconnection st).2 = 0 ∧
    (handleDisconnection st).2.countP isMarkOffline = 0 := by
  unfold handleDisconnection
  by_cases h : st.reconnect_attempts + 1 < st.max_reconnect_attempts
  · rw [if_pos h]; exact ⟨rfl, rfl⟩
  · rw [if_neg h]; exact ⟨rfl, rfl⟩

/-- When the outer while-condition is already false the listener exits at
once, emitting the mark-offline call exactly when running is still true. -/
theorem runListener_exit (st : WSClient) (script : List ConnectOutcome)
    (hrun : st.running = true)
    (hnlt : ¬ st.reconnect_attempts < st.max_reconnect_attempts) :
    runListener st script =
      (st, [WSAction.markOffline], ListenerEnd.finished) := by
  cases script with
  | nil =>
    rw [runListener, if_neg (fun hc => hnlt hc.2)]
    unfold listenerExit
    rw [if_pos hrun]
  | cons o rest =>
    cases o with
    | fail =>
      rw [runListener, if_neg (fun hc => hnlt hc.2)]
      unfold listenerExit
      rw [if_pos hrun]
    | ok reads =>
      rw [runListener, if_neg (fun hc => hnlt hc.2)]
      unfold listenerExit
      rw [if_pos hrun]

/-- Running the listener against a script of nothing but failing connection
attempts: the loop makes exactly max - current attempts further connection
attempts, ends in the terminal finished state with the counter at the
maximum and the connection flag down, and emits exactly one mark-offline
call (running never went false). -/
theorem runListener_allFail (n : Nat) :
    ∀ st : WSClient, st.running = true →
      st.reconnect_attempts ≤ st.max_reconnect_attempts →
      st.max_reconnect_attempts ≤ st.reconnect_attempts + n →
      (runListener st (List.replicate n ConnectOutcome.fail)).2.2 =
          ListenerEnd.finished ∧
      countConnects
          (runListener st (List.replicate n ConnectOutcome.fail)).2.1 =
        st.max_reconnect_attempts - st.reconnect_attempts ∧
      (runListener st
          (List.replicate n ConnectOutcome.fail)).1.reconnect_attempts =
        st.max_reconnect_attempts ∧
      (runListener st (List.replicate n ConnectOutcome.fail)).1.running =
        true ∧
      ((st.is_connected = false ∨
          st.reconnect_attempts < st.max_reconnect_attempts) →
        (runListener st
            (List.replicate n ConnectOutcome.fail)).1.is_connected = false) ∧
      (runListener st (List.replicate n ConnectOutcome.fail)).2.1.countP
          isMarkOffline = 1 := by
  induction n with
  | zero =>
    intro st hrun hle hn
    have hnlt : ¬ st.reconnect_attempts < st.max_reconnect_attempts := by
      omega
    rw [show List.replicate 0 ConnectOutcome.fail = [] from rfl]
    rw [runListener_exit st [] hrun hnlt]
    refine ⟨rfl, ?_, ?_, hrun, ?_, rfl⟩
    · show countConnects [WSAction.markOffline] =
          st.max_reconnect_attempts - st.reconnect_attempts
      have e0 : countConnects [WSAction.markOffline] = 0 := rfl
      omega
    · show st.reconnect_attempts = st.max_reconnect_attempts
      omega
    · intro hd
      rcases hd with hd | hd
      · exact hd
      · exact absurd hd hnlt
  | succ m ih =>
    intro st hrun hle hn
    by_cases hlt : st.reconnect_attempts < st.max_reconnect_attempts
    · have hih := ih (bumpAttempt st) hrun
        (by omega : st.reconnect_attempts + 1 ≤ st.max_reconnect_attempts)
        (by omega : st.max_reconnect_attempts ≤
          st.reconnect_attempts + 1 + m)
      obtain ⟨he, hc, ha, hr, hic, hm⟩ := hih
      have hcounts := handleDisconnection_counts st
      rw [show List.replicate (m + 1) ConnectOutcome.fail =
            ConnectOutcome.fail :: List.replicate m ConnectOutcome.fail
          from rfl]
      rw [runListener, if_pos ⟨hrun, hlt⟩, handleDisconnection_state]
      refine ⟨he, ?_, ha, hr, fun _ => hic (Or.inl rfl), ?_⟩
      · have hb : (bumpAttempt st).reconnect_attempts =
            st.reconnect_attempts + 1 := rfl
        have hbm : (bumpAttempt st).max_reconnect_attempts =
            st.max_reconnect_attempts := rfl
        rw [hb, hbm] at hc
        simp only [countConnects, List.countP_cons, List.countP_append]
          at hc hcounts ⊢
        simp only [beq_self_eq_true, if_true]
        omega
      · simp only [List.countP_cons, List.countP_append] at hcounts hm ⊢
        have hite : (if isMarkOffline WSAction.connectAttempt = true
            then 1 else 0) = 0 := rfl
        omega
    · rw [runListener_exit st _ hrun hlt]
      refine ⟨rfl, ?_, ?_, hrun, ?_, rfl⟩
      · show countConnects [WSAction.markOffline] =
            st.max_reconnect_attempts - st.reconnect_attempts
        have e0 : countConnects [WSAction.markOffline] = 0 := rfl
        omega
      · show st.reconnect_attempts = st.max_reconnect_attempts
        omega
      · intro hd
        rcases hd with hd | hd
        · exact hd
        · exact absurd hd hlt

/-- The state on entering Active: is_connected True, counter reset to 0. -/
def activeState (st : WSClient) : WSClient :=
  { st with is_connected := true, reconnect_attempts := 0 }

/-- The state after disconnect() flips the flags during an active session. -/
def stoppedState (st : WSClient) : WSClient :=
  { st with is_connected := false, reconnect_attempts := 0, running := false }

/-- The listener when the outer while-condition still holds and the script
is exhausted: the loop is about to make another connection attempt. -/
theorem runListener_nil_continue (st : WSClient) (hrun : st.running = true)
    (hlt : st.reconnect_attempts < st.max_reconnect_attempts) :
    runListener st [] = (st, [], ListenerEnd.outOfScript) := by
  rw [runListener, if_pos ⟨hrun, hlt⟩]

/-- The listener after disconnect() has set running to false: the loop
exits without calling _mark_user_offline. -/
theorem runListener_stopped (st : WSClient) (hrun : st.running = false) :
    runListener st [] = (st, [], ListenerEnd.finished) := by
  rw [runListener,
    if_neg (fun hc => by rw [hrun] at hc; exact Bool.noConfusion hc.1)]
  unfold listenerExit
  rw [if_neg (by rw [hrun]; exact Bool.false_ne_true)]

/-- The initial connection state of MessengerWebSocket.__init__. -/
def ws0 : WSClient :=
  { user_id := 1, reconnect_attempts := 0, max_reconnect_attempts := 5,
    is_connected := false, running := true }

/-- C3: once the reconnect counter reaches max_reconnect_attempts (default
5) consecutive connection failures, the while-condition fails, the listener
ends in the terminal finished state with the connection flag down, and no
further connection attempts are made: exactly 5 attempts occur no matter
how much longer the failure script runs. -/
theorem C3_reconnect_exhaustion (st : WSClient) (n : Nat)
    (hrun : st.running = true) (h0 : st.reconnect_attempts = 0)
    (hmax : st.max_reconnect_attempts = 5) (hn : 5 ≤ n) :
    (runListener st (List.replicate n ConnectOutcome.fail)).2.2 =
      ListenerEnd.finished ∧
    countConnects (runListener st (List.replicate n ConnectOutcome.fail)).2.1
      = 5 ∧
    (runListener st
        (List.replicate n ConnectOutcome.fail)).1.reconnect_attempts = 5 ∧
    (runListener st (List.replicate n ConnectOutcome.fail)).1.is_connected =
      false := by
  obtain ⟨he, hc, ha, hr, hic, hm⟩ :=
    runListener_allFail n st hrun (by omega) (by omega)
  refine ⟨he, by omega, by omega, hic (Or.inr (by omega))⟩

/-- C3 witness: a script of 7 consecutive connection failures against the
initial state yields exactly 5 attempts and the terminal state. -/
theorem C3_exhaustion_witness :
    (runListener ws0 (List.replicate 7 ConnectOutcome.fail)).2.2 =
      ListenerEnd.finished ∧
    countConnects (runListener ws0 (List.replicate 7 ConnectOutcome.fail)).2.1
      = 5 ∧
    (runListener ws0
        (List.replicate 7 ConnectOutcome.fail)).1.reconnect_attempts = 5 ∧
    (runListener ws0 (List.replicate 7 ConnectOutcome.fail)).1.is_connected =
      false :=
  C3_reconnect_exhaustion ws0 7 rfl rfl rfl (by decide)

/-- C5: after reconnect attempt N fails (1 ≤ N < 5 = max attempts),
_handle_disconnection sleeps exactly min(2*N, 10) seconds before the next
attempt, and this delay is monotonically non-decreasing in N. -/
theorem C5_backoff_delay (st : WSClient) (N : Nat)
    (ha : st.reconnect_attempts = N - 1)
    (hmax : st.max_reconnect_attempts = 5)
    (h1 : 1 ≤ N) (h2 : N < 5) :
    (handleDisconnection st).2 =
      [WSAction.emitConnection false, WSAction.sleep (backoffDelay N)] ∧
    backoffDelay N = min (2 * N) 10 ∧
    (∀ M, N ≤ M → backoffDelay N ≤ backoffDelay M) := by
  have hN : st.reconnect_attempts + 1 = N := by omega
  refine ⟨?_, rfl, ?_⟩
  · unfold handleDisconnection
    rw [if_pos (by omega), hN]
  · intro M hM
    unfold backoffDelay
    exact min_le_min (by omega) le_rfl

/-- A client that has already burned one reconnect attempt. -/
def ws1 : WSClient :=
  { user_id := 1, reconnect_attempts := 1, max_reconnect_attempts := 5,
    is_connected := false, running := true }

/-- C5 witness: the second failure sleeps backoffDelay 2 = 4 seconds, and
the delay does not decrease towards attempt 3. -/
theorem C5_backoff_witness :
    (handleDisconnection ws1).2 =
      [WSAction.emitConnection false, WSAction.sleep (backoffDelay 2)] ∧
    backoffDelay 2 ≤ backoffDelay 3 :=
  ⟨(C5_backoff_delay ws1 2 rfl rfl (by decide) (by decide)).1,
   (C5_backoff_delay ws1 2 rfl rfl (by decide) (by decide)).2.2 3
     (by decide)⟩

/-- C4: false as stated.  When the session is Active and the keep-alive
ping send fails, the inner read loop merely breaks: _handle_disconnection
is never reached on this path, so the reconnect counter stays 0 (it was
reset on entering Active) rather than being incremented to 1, and the outer
loop immediately retries the connection with no backoff sleep. -/
theorem C4_counterexample :
    (runListener ws0
        [ConnectOutcome.ok [ReadEvent.timeoutPingFail]]).1.reconnect_attempts
      = 0 ∧
    ¬ ((runListener ws0
        [ConnectOutcome.ok [ReadEvent.timeoutPingFail]]).1.reconnect_attempts
      = 1) ∧
    (runListener ws0
        [ConnectOutcome.ok [ReadEvent.timeoutPingFail]]).2.1.countP isSleep
      = 0 ∧
    (runListener ws0 [ConnectOutcome.ok [ReadEvent.timeoutPingFail]]).2.2 =
      ListenerEnd.outOfScript := by
  decide

/-- C4 (amended): when the Active session's ping send fails, the read loop
exits and the client immediately re-enters the connection loop: the
reconnect counter remains 0, no backoff sleep is emitted, and the listener
is about to attempt the next connection. -/
theorem C4_ping_fail_immediate_retry (st : WSClient)
    (hrun : st.running = true)
    (hlt : st.reconnect_attempts < st.max_reconnect_attempts) :
    (runListener st
        [ConnectOutcome.ok [ReadEvent.timeoutPingFail]]).1.reconnect_attempts
      = 0 ∧
    (runListener st
        [ConnectOutcome.ok [ReadEvent.timeoutPingFail]]).2.1.countP isSleep
      = 0 ∧
    (runListener st [ConnectOutcome.ok [ReadEvent.timeoutPingFail]]).2.2 =
      ListenerEnd.outOfScript := by
  have hmax : 0 < st.max_reconnect_attempts := by omega
  rw [runListener, if_pos ⟨hrun, hlt⟩]
  refine ⟨?_, ?_, ?_⟩
  · show (runListener (activeState st) []).1.reconnect_attempts = 0
    rw [runListener_nil_continue (activeState st) hrun hmax]
    rfl
  · show List.countP isSleep
        (WSAction.connectAttempt :: WSAction.emitConnection true ::
          WSAction.sendAuth :: ([WSAction.sendPing] ++
            (runListener (activeState st) []).2.1)) = 0
    rw [runListener_nil_continue (activeState st) hrun hmax]
    rfl
  · show (runListener (activeState st) []).2.2 = ListenerEnd.outOfScript
    rw [runListener_nil_continue (activeState st) hrun hmax]

/-- C4 witness: the amended behavior evaluated on the initial state. -/
theorem C4_ping_fail_witness :
    (runListener ws0
        [ConnectOutcome.ok [ReadEvent.timeoutPingFail]]).1.reconnect_attempts
      = 0 ∧
    (runListener ws0
        [ConnectOutcome.ok [ReadEvent.timeoutPingFail]]).2.1.countP isSleep
      = 0 ∧
    (runListener ws0 [ConnectOutcome.ok [ReadEvent.timeoutPingFail]]).2.2 =
      ListenerEnd.outOfScript :=
  C4_ping_fail_immediate_retry ws0 rfl (by decide)

/-- C8: false as stated.  _mark_user_offline runs only under
"if self.running:" after the loop, so when the user explicitly stopped a
previously active session (disconnect() set running to false) the loop
exits without any presence call: here a session becomes Active and is then
explicitly stopped, and the trace contains no mark-offline action. -/
theorem C8_counterexample :
    (runListener ws0 [ConnectOutcome.ok [ReadEvent.stop]]).2.1.countP
        isMarkOffline = 0 ∧
    (runListener ws0 [ConnectOutcome.ok [ReadEvent.stop]]).2.2 =
      ListenerEnd.finished ∧
    (runListener ws0 [ConnectOutcome.ok [ReadEvent.stop]]).1.running =
      false := by
  decide

/-- C8 (amended): the best-effort mark-offline presence call happens on
final loop exit exactly when the running flag is still true — i.e. when
reconnect attempts are exhausted, one such call is made; when the loop
exits because of an explicit stop of an active session, no presence call
is made. -/
theorem C8_mark_offline_only_if_running (st : WSClient) (n : Nat)
    (hrun : st.running = true)
    (hle : st.reconnect_attempts ≤ st.max_reconnect_attempts)
    (hn : st.max_reconnect_attempts ≤ st.reconnect_attempts + n)
    (hlt : st.reconnect_attempts < st.max_reconnect_attempts) :
    ((runListener st (List.replicate n ConnectOutcome.fail)).2.1.countP
        isMarkOffline = 1 ∧
      (runListener st (List.replicate n ConnectOutcome.fail)).2.2 =
        ListenerEnd.finished) ∧
    ((runListener st [ConnectOutcome.ok [ReadEvent.stop]]).2.1.countP
        isMarkOffline = 0 ∧
      (runListener st [ConnectOutcome.ok [ReadEvent.stop]]).2.2 =
        ListenerEnd.finished) := by
  constructor
  · obtain ⟨he, _, _, _, _, hm⟩ := runListener_allFail n st hrun hle hn
    exact ⟨hm, he⟩
  · rw [runListener, if_pos ⟨hrun, hlt⟩]
    refine ⟨?_, ?_⟩
    · show List.countP isMarkOffline
          (WSAction.connectAttempt :: WSAction.emitConnection true ::
            WSAction.sendAuth :: ([WSAction.emitConnection false] ++
              (runListener (stoppedState st) []).2.1)) = 0
      rw [runListener_stopped (stoppedState st) rfl]
      rfl
    · show (runListener (stoppedState st) []).2.2 = ListenerEnd.finished
      rw [runListener_stopped (stoppedState st) rfl]

/-- C8 witness: from the initial state, exhausting 5 attempts over a
7-failure script emits exactly one mark-offline call, while an explicit
stop of an active session emits none. -/
theorem C8_mark_offline_witness :
    ((runListener ws0 (List.replicate 7 ConnectOutcome.fail)).2.1.countP
        isMarkOffline = 1 ∧
      (runListener ws0 (List.replicate 7 ConnectOutcome.fail)).2.2 =
        ListenerEnd.finished) ∧
    ((runListener ws0 [ConnectOutcome.ok [ReadEvent.stop]]).2.1.countP
        isMarkOffline = 0 ∧
      (runListener ws0 [ConnectOutcome.ok [ReadEvent.stop]]).2.2 =
        ListenerEnd.finished) :=
  C8_mark_offline_only_if_running ws0 7 rfl (by decide) (by decide)
    (by decide)
